import Mathlib

/-!
Verification of the offset-calculation core of the bmo guide-camera package
(`python/bmo/utils.py`): the translation-offset calculator, the plate-angle
model, the rotation-offset calculator and the focal-point lookup.

The Python functions are shallowly embedded over exact real arithmetic
(`ℝ`, Mathlib's `Real.cos`, `Real.tan`, `Real.arccos`).  The calibration
constants `FOCAL_SCALE` (arcsec/mm) and `PIXEL_SIZE` (mm/pixel) are read
from a configuration file at startup in the Python code; here they are
explicit real parameters of each embedded function.  The plate database
behind `get_camera_focal` is an external collaborator; it is modelled as a
function `geom : Int → String → List (ℝ × ℝ)` returning, for a plate id and
camera slot, the list of matching acquisition-hole records.
-/

namespace Bmo

/-- Error outcomes of the embedded functions.  `invalidCameraSlot` models the
`assert camera in ['center', 'offaxis']` failure, `geometryUnavailable` the
`assert query.count() == 1` failure in `get_camera_focal`, and `valueError`
the `raise ValueError(...)` guard in `get_rotation_offset`. -/
inductive BmoErr where
  | invalidCameraSlot
  | geometryUnavailable
  | valueError
  deriving DecidableEq

/-- numpy's `deg2rad`: degrees to radians. -/
noncomputable def deg2rad (d : ℝ) : ℝ := d * Real.pi / 180

/-- numpy's `rad2deg`: radians to degrees. -/
noncomputable def rad2deg (r : ℝ) : ℝ := r * 180 / Real.pi

/-- Embedding of the inner function `get_angle` of `get_rotation_offset`
(utils.py lines 243-256): the plate-position angle, in degrees, of a
focal-plane point `(x_focal, y_focal)` in mm.  `FOCAL_SCALE` is the
configuration constant, passed explicitly. -/
noncomputable def get_angle (FOCAL_SCALE x_focal y_focal : ℝ) : ℝ :=
  let x_focal_rad := deg2rad (x_focal * FOCAL_SCALE / 3600)
  let y_focal_rad := deg2rad (y_focal * FOCAL_SCALE / 3600)
  let cc := Real.arccos (Real.cos x_focal_rad * Real.cos y_focal_rad)
  let theta := rad2deg (Real.arccos (Real.tan (Real.pi / 2 - cc) * Real.tan y_focal_rad))
  if x_focal ≥ 0 then theta else 360 - theta

/-- Embedding of `get_camera_focal` (utils.py lines 120-135).  The external
plate-database query is modelled by `geom`, which returns the records
matching the plate id and camera slot; the function asserts that the camera
slot is valid and that exactly one record matches, and returns that record's
`(xfocal, yfocal)`. -/
def get_camera_focal (geom : Int → String → List (ℝ × ℝ)) (plate_id : Int)
    (camera : String) : Except BmoErr (ℝ × ℝ) :=
  if camera = "center" ∨ camera = "offaxis" then
    match geom plate_id camera with
    | [xy] => .ok xy
    | _ => .error .geometryUnavailable
  else .error .invalidCameraSlot

/-- Embedding of `get_translation_offset` (utils.py lines 170-205): the
offset from the centre of the image to the centroid, in arcsec, computed as
`(centroid - image_centre) * PIXEL_SIZE * FOCAL_SCALE` componentwise, where
the image centre defaults to `shape / 2`. -/
noncomputable def get_translation_offset (PIXEL_SIZE FOCAL_SCALE : ℝ) (centroid : ℝ × ℝ)
    (shape : ℝ × ℝ) (img_centre : Option (ℝ × ℝ)) : ℝ × ℝ :=
  let on_centre := match img_centre with
    | none => (shape.1 / 2, shape.2 / 2)
    | some c => c
  ((centroid.1 - on_centre.1) * PIXEL_SIZE * FOCAL_SCALE,
   (centroid.2 - on_centre.2) * PIXEL_SIZE * FOCAL_SCALE)

/-- Embedding of `get_rotation_offset` (utils.py lines 208-290).  It fetches
the off-axis camera's focal point, guards against a falsy result (a 2-tuple
of floats is never falsy in Python, modelled by the emptiness test on the
two-element list), optionally corrects the centroid by the translation
offset converted back to pixels, projects the pixel displacement from the
image centre into focal mm, and returns the angle difference in arcsec. -/
noncomputable def get_rotation_offset (PIXEL_SIZE FOCAL_SCALE : ℝ)
    (geom : Int → String → List (ℝ × ℝ)) (plate_id : Int) (centroid : ℝ × ℝ)
    (shape : ℝ × ℝ) (translation_offset : Option (ℝ × ℝ))
    (img_centre : Option (ℝ × ℝ)) : Except BmoErr ℝ :=
  match get_camera_focal geom plate_id "offaxis" with
  | .error e => .error e
  | .ok xy_focal =>
    if ([xy_focal.1, xy_focal.2] : List ℝ).isEmpty then .error .valueError
    else
      let x_focal_centre := xy_focal.1
      let y_focal_centre := xy_focal.2
      let angle_centre := get_angle FOCAL_SCALE x_focal_centre y_focal_centre
      let corrected := match translation_offset with
        | none => centroid
        | some t => (centroid.1 - t.1 / FOCAL_SCALE / PIXEL_SIZE,
                     centroid.2 - t.2 / FOCAL_SCALE / PIXEL_SIZE)
      let img_c := match img_centre with
        | none => (shape.1 / 2, shape.2 / 2)
        | some c => c
      let x_pix := corrected.1 - img_c.1
      let y_pix := corrected.2 - img_c.2
      let x_focal_off := x_focal_centre - x_pix * PIXEL_SIZE
      let y_focal_off := y_focal_centre - y_pix * PIXEL_SIZE
      let angle_off := get_angle FOCAL_SCALE x_focal_off y_focal_off
      .ok ((angle_off - angle_centre) * 3600)

/-- On the x-axis the theta formula degenerates: `tan 0 = 0` makes the
`arccos` argument `0`, so `theta = 90` degrees regardless of `x_focal`. -/
theorem get_angle_x_axis (FOCAL_SCALE x_focal : ℝ) :
    get_angle FOCAL_SCALE x_focal 0 =
      if x_focal ≥ 0 then 90 else 270 := by
  have hy : deg2rad (0 * FOCAL_SCALE / 3600) = 0 := by
    simp [deg2rad]
  have htheta :
      rad2deg (Real.arccos (Real.tan (Real.pi / 2 -
        Real.arccos (Real.cos (deg2rad (x_focal * FOCAL_SCALE / 3600)) *
          Real.cos (deg2rad (0 * FOCAL_SCALE / 3600)))) *
        Real.tan (deg2rad (0 * FOCAL_SCALE / 3600)))) = 90 := by
    rw [hy, Real.tan_zero, mul_zero, Real.arccos_zero, rad2deg]
    field_simp
    ring
  unfold get_angle
  simp only [htheta]
  split <;> norm_num

/-- C2: `get_translation_offset` returns `(centroid - image_centre) * PIXEL_SIZE *
FOCAL_SCALE` componentwise (x-axis giving trans_ra, y-axis trans_dec), with the
image centre the supplied `img_centre` or `(shape.1 / 2, shape.2 / 2)` when
absent; in particular it returns exactly `(0, 0)` whenever the centroid equals
the image centre. -/
theorem C2_translation_offset_formula (PIXEL_SIZE FOCAL_SCALE : ℝ)
    (centroid shape : ℝ × ℝ) (img_centre : Option (ℝ × ℝ)) :
    get_translation_offset PIXEL_SIZE FOCAL_SCALE centroid shape img_centre =
      ((centroid.1 - (img_centre.getD (shape.1 / 2, shape.2 / 2)).1) *
          PIXEL_SIZE * FOCAL_SCALE,
       (centroid.2 - (img_centre.getD (shape.1 / 2, shape.2 / 2)).2) *
          PIXEL_SIZE * FOCAL_SCALE) ∧
    (centroid = img_centre.getD (shape.1 / 2, shape.2 / 2) →
      get_translation_offset PIXEL_SIZE FOCAL_SCALE centroid shape img_centre = (0, 0)) := by
  constructor
  · cases img_centre <;> rfl
  · intro hc
    cases img_centre <;>
      simp only [get_translation_offset, Option.getD] at hc ⊢ <;>
      rw [hc] <;> simp

/-- C2 witness: the spec's concrete scenario, centroid `(1024, 1024)` at the
centre of a `(2048, 2048)` frame gives offset `(0, 0)`. -/
theorem C2_translation_offset_formula_witness :
    get_translation_offset 0.00586 (3600 / 330.275) (1024, 1024) (2048, 2048) none = (0, 0) :=
  (C2_translation_offset_formula 0.00586 (3600 / 330.275) (1024, 1024) (2048, 2048) none).2
    (by norm_num)

/-- C5: supplying a translation offset is the same as calling
`get_rotation_offset` with no translation offset on the corrected centroid
`centroid - translation_offset / FOCAL_SCALE / PIXEL_SIZE`; the rotation is
never evaluated on the raw centroid when a translation offset is supplied. -/
theorem C5_translate_then_rotate (PIXEL_SIZE FOCAL_SCALE : ℝ)
    (geom : Int → String → List (ℝ × ℝ)) (plate_id : Int) (centroid shape : ℝ × ℝ)
    (t : ℝ × ℝ) (img_centre : Option (ℝ × ℝ)) :
    get_rotation_offset PIXEL_SIZE FOCAL_SCALE geom plate_id centroid shape
        (some t) img_centre =
      get_rotation_offset PIXEL_SIZE FOCAL_SCALE geom plate_id
        (centroid.1 - t.1 / FOCAL_SCALE / PIXEL_SIZE,
         centroid.2 - t.2 / FOCAL_SCALE / PIXEL_SIZE) shape none img_centre := by
  unfold get_rotation_offset
  cases get_camera_focal geom plate_id "offaxis" <;> rfl

/-- C7 counterexample: at the non-positive shape `(0, -1)` the code performs no
shape validation and does not fail; it returns the usual formula value. -/
theorem C7_counterexample :
    get_translation_offset 0.00586 (3600 / 330.275) (5, 5) (0, -1) none =
      (5 * 0.00586 * (3600 / 330.275), (5 + 1 / 2) * 0.00586 * (3600 / 330.275)) := by
  unfold get_translation_offset
  norm_num

/-- C7 amended: `get_translation_offset` performs no shape validation: for every
shape with a non-positive width or height it still returns the formula value
(there is no `InvalidShapeError` path in the code). -/
theorem C7_no_shape_validation (PIXEL_SIZE FOCAL_SCALE : ℝ) (centroid : ℝ × ℝ)
    (w h : ℝ) (_hwh : w ≤ 0 ∨ h ≤ 0) (img_centre : Option (ℝ × ℝ)) :
    get_translation_offset PIXEL_SIZE FOCAL_SCALE centroid (w, h) img_centre =
      ((centroid.1 - (img_centre.getD (w / 2, h / 2)).1) * PIXEL_SIZE * FOCAL_SCALE,
       (centroid.2 - (img_centre.getD (w / 2, h / 2)).2) * PIXEL_SIZE * FOCAL_SCALE) := by
  cases img_centre <;> rfl

/-- C7 witness: the amended theorem applied at shape `(0, -1)`. -/
theorem C7_no_shape_validation_witness :
    get_translation_offset 0.00586 (3600 / 330.275) (5, 5) (0, -1) none =
      ((5 - 0 / 2) * 0.00586 * (3600 / 330.275),
       (5 - -1 / 2) * 0.00586 * (3600 / 330.275)) :=
  C7_no_shape_validation 0.00586 (3600 / 330.275) (5, 5) 0 (-1) (Or.inl le_rfl) none

/-- C9: dividing the output of `get_translation_offset` componentwise by
`FOCAL_SCALE` and then by `PIXEL_SIZE` reproduces the pixel displacement
`centroid - image_centre` exactly, and re-applying the forward formula
(multiplying by `PIXEL_SIZE * FOCAL_SCALE`) reproduces the offset. -/
theorem C9_round_trip (PIXEL_SIZE FOCAL_SCALE : ℝ) (hP : PIXEL_SIZE ≠ 0)
    (hF : FOCAL_SCALE ≠ 0) (centroid shape : ℝ × ℝ) (img_centre : Option (ℝ × ℝ)) :
    ((get_translation_offset PIXEL_SIZE FOCAL_SCALE centroid shape img_centre).1 /
        FOCAL_SCALE / PIXEL_SIZE =
      centroid.1 - (img_centre.getD (shape.1 / 2, shape.2 / 2)).1) ∧
    ((get_translation_offset PIXEL_SIZE FOCAL_SCALE centroid shape img_centre).2 /
        FOCAL_SCALE / PIXEL_SIZE =
      centroid.2 - (img_centre.getD (shape.1 / 2, shape.2 / 2)).2) ∧
    ((get_translation_offset PIXEL_SIZE FOCAL_SCALE centroid shape img_centre).1 /
        FOCAL_SCALE / PIXEL_SIZE * PIXEL_SIZE * FOCAL_SCALE =
      (get_translation_offset PIXEL_SIZE FOCAL_SCALE centroid shape img_centre).1) ∧
    ((get_translation_offset PIXEL_SIZE FOCAL_SCALE centroid shape img_centre).2 /
        FOCAL_SCALE / PIXEL_SIZE * PIXEL_SIZE * FOCAL_SCALE =
      (get_translation_offset PIXEL_SIZE FOCAL_SCALE centroid shape img_centre).2) := by
  cases img_centre <;>
    simp only [get_translation_offset, Option.getD] <;>
    refine ⟨?_, ?_, ?_, ?_⟩ <;> field_simp <;> ring

/-- C9 witness: round trip at the spec's concrete scenario, centroid
`(1124, 1024)` in a `(2048, 2048)` frame. -/
theorem C9_round_trip_witness :
    (get_translation_offset 0.00586 (3600 / 330.275) (1124, 1024) (2048, 2048) none).1 /
        (3600 / 330.275) / 0.00586 = 1124 - 2048 / 2 :=
  ((C9_round_trip 0.00586 (3600 / 330.275) (by norm_num) (by norm_num)
    (1124, 1024) (2048, 2048) none).1).trans (by norm_num)

/-- C10: `get_camera_focal` on success returns a two-element tuple, which is
never falsy in Python, so the `ValueError` guard in `get_rotation_offset` is
unreachable: no input makes `get_rotation_offset` produce that error. -/
theorem C10_valueError_unreachable (PIXEL_SIZE FOCAL_SCALE : ℝ)
    (geom : Int → String → List (ℝ × ℝ)) (plate_id : Int) (centroid shape : ℝ × ℝ)
    (translation_offset img_centre : Option (ℝ × ℝ)) :
    get_rotation_offset PIXEL_SIZE FOCAL_SCALE geom plate_id centroid shape
        translation_offset img_centre ≠ Except.error BmoErr.valueError := by
  unfold get_rotation_offset get_camera_focal
  rw [if_pos (Or.inr rfl)]
  cases hg : geom plate_id "offaxis" with
  | nil => simp
  | cons a l =>
    cases l with
    | nil => simp [List.isEmpty]
    | cons b l' => simp

/-- C6: for every plate id and valid camera slot, `get_camera_focal` fails with
the geometry-unavailable error when zero or more than one record matches, never
substituting a default; it returns the `(x_focal, y_focal)` pair exactly when
there is one record; and `get_rotation_offset`, which calls it, propagates
that failure. -/
theorem C6_geometry_unavailable (geom : Int → String → List (ℝ × ℝ)) (plate_id : Int)
    (camera : String) (hcam : camera = "center" ∨ camera = "offaxis")
    (PIXEL_SIZE FOCAL_SCALE : ℝ) (centroid shape : ℝ × ℝ)
    (translation_offset img_centre : Option (ℝ × ℝ)) :
    ((geom plate_id camera).length ≠ 1 →
      get_camera_focal geom plate_id camera = .error .geometryUnavailable) ∧
    (∀ xy : ℝ × ℝ, geom plate_id camera = [xy] →
      get_camera_focal geom plate_id camera = .ok xy) ∧
    ((geom plate_id "offaxis").length ≠ 1 →
      get_rotation_offset PIXEL_SIZE FOCAL_SCALE geom plate_id centroid shape
        translation_offset img_centre = .error .geometryUnavailable) := by
  refine ⟨?_, ?_, ?_⟩
  · intro hlen
    unfold get_camera_focal
    rw [if_pos hcam]
    cases hg : geom plate_id camera with
    | nil => rfl
    | cons a l =>
      cases l with
      | nil => exact absurd (by rw [hg]; rfl) hlen
      | cons b l' => rfl
  · intro xy hg
    unfold get_camera_focal
    rw [if_pos hcam, hg]
  · intro hlen
    unfold get_rotation_offset get_camera_focal
    rw [if_pos (Or.inr rfl)]
    cases hg : geom plate_id "offaxis" with
    | nil => rfl
    | cons a l =>
      cases l with
      | nil => exact absurd (by rw [hg]; rfl) hlen
      | cons b l' => rfl

/-- C6 witness: a provider with no matching record for plate 999999 makes both
lookups fail with the geometry-unavailable error. -/
theorem C6_geometry_unavailable_witness :
    get_camera_focal (fun _ _ => []) 999999 "offaxis" =
        Except.error BmoErr.geometryUnavailable ∧
      get_rotation_offset 0.00586 (3600 / 330.275) (fun _ _ => []) 999999 (1024, 1024)
        (2048, 2048) none none = Except.error BmoErr.geometryUnavailable := by
  have h := C6_geometry_unavailable (fun _ _ => []) 999999 "offaxis" (Or.inr rfl)
    0.00586 (3600 / 330.275) (1024, 1024) (2048, 2048) none none
  exact ⟨h.1 (by simp), h.2.2 (by simp)⟩

/-- C1: with a resolved off-axis focal point `(xf, yf)` and no translation
offset, `get_rotation_offset` returns `(angle_off - angle_centre) * 3600`
where `angle_centre = get_angle xf yf`, `(x_pix, y_pix)` is the centroid minus
the image centre (the supplied one, or `shape / 2` by default), and
`angle_off = get_angle (xf - x_pix * PIXEL_SIZE) (yf - y_pix * PIXEL_SIZE)`. -/
theorem C1_rotation_formula (PIXEL_SIZE FOCAL_SCALE : ℝ)
    (geom : Int → String → List (ℝ × ℝ)) (plate_id : Int) (centroid shape : ℝ × ℝ)
    (img_centre : Option (ℝ × ℝ)) (xf yf : ℝ)
    (hg : geom plate_id "offaxis" = [(xf, yf)]) :
    get_rotation_offset PIXEL_SIZE FOCAL_SCALE geom plate_id centroid shape
        none img_centre =
      .ok ((get_angle FOCAL_SCALE
          (xf - (centroid.1 - (img_centre.getD (shape.1 / 2, shape.2 / 2)).1) * PIXEL_SIZE)
          (yf - (centroid.2 - (img_centre.getD (shape.1 / 2, shape.2 / 2)).2) * PIXEL_SIZE) -
        get_angle FOCAL_SCALE xf yf) * 3600) := by
  unfold get_rotation_offset get_camera_focal
  rw [if_pos (Or.inr rfl), hg]
  cases img_centre <;> rfl

/-- C1 witness: the formula at a concrete provider, plate, centroid and shape. -/
theorem C1_rotation_formula_witness :
    get_rotation_offset 0.00586 (3600 / 330.275) (fun _ _ => [((1 : ℝ), 2)]) 1 (3, 4)
        (10, 10) none none =
      Except.ok ((get_angle (3600 / 330.275)
          (1 - ((3 : ℝ) - (10 : ℝ) / 2) * 0.00586)
          (2 - ((4 : ℝ) - (10 : ℝ) / 2) * 0.00586) -
        get_angle (3600 / 330.275) 1 2) * 3600) :=
  C1_rotation_formula 0.00586 (3600 / 330.275) (fun _ _ => [((1 : ℝ), 2)]) 1 (3, 4)
    (10, 10) none 1 2 rfl

/-- C8: with a resolved off-axis focal point and no translation offset, a
centroid exactly at the image centre (the pixel-space position of the
registered focal point) gives rotation `0` arcsec: the pixel displacement
vanishes, so `angle_off = angle_centre`. -/
theorem C8_zero_rotation_at_focal (PIXEL_SIZE FOCAL_SCALE : ℝ)
    (geom : Int → String → List (ℝ × ℝ)) (plate_id : Int) (shape : ℝ × ℝ)
    (img_centre : Option (ℝ × ℝ)) (xf yf : ℝ)
    (hg : geom plate_id "offaxis" = [(xf, yf)]) :
    get_rotation_offset PIXEL_SIZE FOCAL_SCALE geom plate_id
        (img_centre.getD (shape.1 / 2, shape.2 / 2)) shape none img_centre =
      .ok 0 := by
  unfold get_rotation_offset get_camera_focal
  rw [if_pos (Or.inr rfl), hg]
  cases img_centre <;> simp

/-- C8 witness: zero rotation at the image centre for a concrete provider. -/
theorem C8_zero_rotation_at_focal_witness :
    get_rotation_offset 0.00586 (3600 / 330.275) (fun _ _ => [((1 : ℝ), 2)]) 1 (5, 5)
        (10, 10) none none = Except.ok 0 := by
  have h := C8_zero_rotation_at_focal 0.00586 (3600 / 330.275)
    (fun _ _ => [((1 : ℝ), 2)]) 1 (10, 10) none 1 2 rfl
  norm_num [Option.getD] at h ⊢
  exact h

/-- C3 counterexample: at `FOCAL_SCALE = 3600 / 330.275`, `x = 1 > 0`,
`get_angle 1 0` is exactly `90` degrees, not `0` (nor near `0`). -/
theorem C3_counterexample :
    get_angle (3600 / 330.275) 1 0 ≠ 0 ∧ get_angle (3600 / 330.275) 1 0 = 90 := by
  have h : get_angle (3600 / 330.275) 1 0 = 90 := by
    rw [get_angle_x_axis, if_pos (by norm_num : (1 : ℝ) ≥ 0)]
  exact ⟨by rw [h]; norm_num, h⟩

/-- C3 amended: on the x-axis the angle model returns `90` degrees for
`x > 0` and `270` degrees for `x < 0` (not `0` and `180`): with `y = 0` the
theta formula collapses to `arccos 0 = 90` degrees, and the sign rule maps it
to `90` or `360 - 90 = 270`. -/
theorem C3_x_axis_value (FOCAL_SCALE x_focal : ℝ) :
    (0 < x_focal → get_angle FOCAL_SCALE x_focal 0 = 90) ∧
    (x_focal < 0 → get_angle FOCAL_SCALE x_focal 0 = 270) := by
  constructor
  · intro h
    rw [get_angle_x_axis, if_pos (le_of_lt h)]
  · intro h
    rw [get_angle_x_axis, if_neg (not_le.mpr h)]

/-- C3 witness: the amended value at `x = -1`. -/
theorem C3_x_axis_value_witness :
    get_angle (3600 / 330.275) (-1) 0 = 270 :=
  (C3_x_axis_value (3600 / 330.275) (-1)).2 (by norm_num)

/-- Converting the value of `arccos` to degrees gives a number in `[0, 180]`. -/
theorem rad2deg_arccos_bounds (A : ℝ) :
    0 ≤ rad2deg (Real.arccos A) ∧ rad2deg (Real.arccos A) ≤ 180 := by
  unfold rad2deg
  constructor
  · exact div_nonneg (mul_nonneg (Real.arccos_nonneg A) (by norm_num)) Real.pi_pos.le
  · rw [div_le_iff₀ Real.pi_pos]
    have h := Real.arccos_le_pi A
    linarith [Real.pi_pos]

/-- C4 amended: `get_angle` computes
`theta = rad2deg (arccos (tan (π/2 - cc) * tan y_rad))` with
`cc = arccos (cos x_rad * cos y_rad)`, returns `theta` when `x_focal ≥ 0` and
`360 - theta` otherwise, and the result always lies in the closed interval
`[0, 360]` (the value `360` itself is attained, so the half-open interval
`[0, 360)` of the original claim is too strong). -/
theorem C4_angle_formula_closed_range (FOCAL_SCALE x_focal y_focal : ℝ)
    (_h : (x_focal, y_focal) ≠ (0, 0)) :
    (get_angle FOCAL_SCALE x_focal y_focal =
      if x_focal ≥ 0 then
        rad2deg (Real.arccos (Real.tan (Real.pi / 2 -
          Real.arccos (Real.cos (deg2rad (x_focal * FOCAL_SCALE / 3600)) *
            Real.cos (deg2rad (y_focal * FOCAL_SCALE / 3600)))) *
          Real.tan (deg2rad (y_focal * FOCAL_SCALE / 3600))))
      else
        360 - rad2deg (Real.arccos (Real.tan (Real.pi / 2 -
          Real.arccos (Real.cos (deg2rad (x_focal * FOCAL_SCALE / 3600)) *
            Real.cos (deg2rad (y_focal * FOCAL_SCALE / 3600)))) *
          Real.tan (deg2rad (y_focal * FOCAL_SCALE / 3600))))) ∧
    0 ≤ get_angle FOCAL_SCALE x_focal y_focal ∧
    get_angle FOCAL_SCALE x_focal y_focal ≤ 360 := by
  refine ⟨rfl, ?_, ?_⟩ <;>
    · unfold get_angle
      have hb := rad2deg_arccos_bounds (Real.tan (Real.pi / 2 -
        Real.arccos (Real.cos (deg2rad (x_focal * FOCAL_SCALE / 3600)) *
          Real.cos (deg2rad (y_focal * FOCAL_SCALE / 3600)))) *
        Real.tan (deg2rad (y_focal * FOCAL_SCALE / 3600)))
      split <;> linarith [hb.1, hb.2]

/-- C4 witness: the range bounds at the concrete input `(1, 1)`. -/
theorem C4_angle_formula_closed_range_witness :
    0 ≤ get_angle (3600 / 330.275) 1 1 ∧ get_angle (3600 / 330.275) 1 1 ≤ 360 :=
  (C4_angle_formula_closed_range (3600 / 330.275) 1 1 (by norm_num)).2

/-- C4 counterexample: at `FOCAL_SCALE = 3600 / 330.275` the focal point
`(-118899, 44587.125)` mm maps to `x_rad = -2π`, `y_rad = 3π/4`; there
`theta = rad2deg (arccos ((-1) * (-1))) = 0` and `x_focal < 0` gives
`360 - 0 = 360`, outside the half-open interval `[0, 360)`. -/
theorem C4_counterexample :
    get_angle (3600 / 330.275) (-118899) 44587.125 = 360 ∧
    ¬ get_angle (3600 / 330.275) (-118899) 44587.125 < 360 := by
  have hx : deg2rad ((-118899 : ℝ) * (3600 / 330.275) / 3600) = -(2 * Real.pi) := by
    unfold deg2rad
    have h : ((-118899 : ℝ) * (3600 / 330.275) / 3600) = -360 := by norm_num
    rw [h]; ring
  have hy : deg2rad ((44587.125 : ℝ) * (3600 / 330.275) / 3600) =
      Real.pi - Real.pi / 4 := by
    unfold deg2rad
    have h : ((44587.125 : ℝ) * (3600 / 330.275) / 3600) = 135 := by norm_num
    rw [h]; ring
  have harc : Real.arccos (Real.cos (Real.pi - Real.pi / 4)) = Real.pi - Real.pi / 4 :=
    Real.arccos_cos (by linarith [Real.pi_pos]) (by linarith [Real.pi_pos])
  have key : get_angle (3600 / 330.275) (-118899) 44587.125 = 360 := by
    simp only [get_angle]
    rw [hx, hy, Real.cos_neg, Real.cos_two_pi, one_mul, harc]
    have h3 : Real.pi / 2 - (Real.pi - Real.pi / 4) = -(Real.pi / 4) := by ring
    rw [h3, Real.tan_neg, Real.tan_pi_div_four, Real.tan_pi_sub,
      Real.tan_pi_div_four]
    rw [if_neg (by norm_num : ¬((-118899 : ℝ) ≥ 0))]
    norm_num [Real.arccos_one, rad2deg]
  exact ⟨key, by rw [key]; exact lt_irrefl 360⟩

end Bmo
